import Mathlib

/-!
Shallow embedding of the reactive root orchestration of the uikit
repository (packages/uikit/src/components/root.ts and the Image wrapper
class), together with proofs of the specification's testable properties.

Numbers are modelled as exact rationals (JavaScript IEEE doubles are
idealised as exact arithmetic). Mutable closure state is modelled as
explicit state passing.
-/

namespace Uikit

/-! ## Deferred layout calculation

`createDeferredRequestLayoutCalculation` (root.ts, lines 224-245) keeps a
single mutable slot `requestedNode`; the returned request function fills
the slot only when it is empty and the node's engine handle (`yogaNode`)
is non-null, and the registered frame hook drains the slot and calls
`calculateLayout` on the drained node.

The mutable world holds, per node id, the optional engine handle
(`yoga n = none` models a node whose `yogaNode` is null: never created or
already destroyed), the pending slot, and two logs: every invocation of
`FlexNode.calculateLayout`, and every actual layout-engine recompute
performed. -/

structure World where
  yoga : Nat → Option Nat
  requested : Option Nat
  calcInvocations : List Nat
  engineRecomputes : List Nat

/-- Modelled from the spec: `FlexNode.calculateLayout` is not under `src/`.
Per spec 4.2 a layout pass "must be safe to call even if layout was never
computed" and destruction releases the engine handle, so the method
no-ops at the engine level when the handle is absent. The invocation is
always logged; an engine recompute is logged only when the handle is
present. -/
def calculateLayout (w : World) (n : Nat) : World :=
  let w1 : World := { w with calcInvocations := w.calcInvocations ++ [n] }
  match w.yoga n with
  | none => w1
  | some _ => { w1 with engineRecomputes := w1.engineRecomputes ++ [n] }

/-- The frame hook registered by `createDeferredRequestLayoutCalculation`
(root.ts, lines 229-236): return when no node is pending, otherwise clear
the slot and call `calculateLayout` on the drained node. -/
def deferredOnFrame (w : World) : World :=
  match w.requested with
  | none => w
  | some n => calculateLayout { w with requested := none } n

/-- The request function returned by
`createDeferredRequestLayoutCalculation` (root.ts, lines 239-244): return
when a node is already pending or the node's `yogaNode` is null,
otherwise record the node as pending. -/
def requestCalculateLayout (w : World) (n : Nat) : World :=
  if w.requested.isSome || (w.yoga n).isNone then w
  else { w with requested := some n }

/-- `FlexNode.destroy` releases the underlying engine handle
(spec 3, Layout Node lifecycle). -/
def destroyNode (w : World) (n : Nat) : World :=
  { w with yoga := fun m => if m = n then none else w.yoga m }

/-- A concrete world where every node has a live engine handle. -/
def allLiveWorld : World :=
  { yoga := fun _ => some 0, requested := none,
    calcInvocations := [], engineRecomputes := [] }

/-- A concrete world where only node 0 has a live engine handle. -/
def onlyZeroLiveWorld : World :=
  { yoga := fun m => if m = 0 then some 1 else none, requested := none,
    calcInvocations := [], engineRecomputes := [] }

theorem requestCalculateLayout_of_pending (w : World) (n : Nat)
    (h : w.requested.isSome) : requestCalculateLayout w n = w := by
  unfold requestCalculateLayout
  simp [h]

theorem foldl_requestCalculateLayout_of_pending (w : World) (ns : List Nat)
    (h : w.requested.isSome) : ns.foldl requestCalculateLayout w = w := by
  induction ns with
  | nil => rfl
  | cons n ns ih =>
      simp [List.foldl, requestCalculateLayout_of_pending w n h, ih]

/-- C1: N >= 1 same-frame requests on live nodes record at most one
pending node (the first), and the next frame hook invocation calls
`calculateLayout` exactly once, on that first node, and clears the
pending slot. -/
theorem deferredLayout_coalesces (w : World) (n : Nat) (ns : List Nat)
    (hreq : w.requested = none) (hlive : (w.yoga n).isSome) :
    let w1 := (n :: ns).foldl requestCalculateLayout w
    w1.requested = some n ∧
    (deferredOnFrame w1).requested = none ∧
    (deferredOnFrame w1).calcInvocations = w.calcInvocations ++ [n] ∧
    (deferredOnFrame w1).engineRecomputes = w.engineRecomputes ++ [n] := by
  intro w1
  have hstep : requestCalculateLayout w n = { w with requested := some n } := by
    unfold requestCalculateLayout
    simp [hreq, Option.isNone_iff_eq_none]
    intro hnone
    rw [hnone] at hlive
    simp at hlive
  have hw1 : w1 = { w with requested := some n } := by
    show (n :: ns).foldl requestCalculateLayout w = _
    rw [List.foldl_cons, hstep,
      foldl_requestCalculateLayout_of_pending _ ns (by simp)]
  rw [hw1]
  obtain ⟨h, hh⟩ := Option.isSome_iff_exists.mp hlive
  simp [deferredOnFrame, calculateLayout, hh]

/-- Witness for C1: three same-frame requests (nodes 5, 6, 5) coalesce
into a single `calculateLayout` call on node 5. -/
theorem deferredLayout_coalesces_witness :
    (allLiveWorld.requested = none ∧ (allLiveWorld.yoga 5).isSome) ∧
    (let w1 := ([5, 6, 5] : List Nat).foldl requestCalculateLayout allLiveWorld
     w1.requested = some 5 ∧
     (deferredOnFrame w1).requested = none ∧
     (deferredOnFrame w1).calcInvocations = allLiveWorld.calcInvocations ++ [5] ∧
     (deferredOnFrame w1).engineRecomputes = allLiveWorld.engineRecomputes ++ [5]) :=
  ⟨⟨rfl, by decide⟩, deferredLayout_coalesces allLiveWorld 5 [6, 5] rfl (by decide)⟩

/-- C7: requesting a layout calculation for a node whose engine handle is
null is a silent no-op: the world, and in particular the pending slot, is
unchanged, so no layout pass is ever triggered for that node. -/
theorem requestCalculateLayout_noop_of_dead (w : World) (n : Nat)
    (h : w.yoga n = none) : requestCalculateLayout w n = w := by
  unfold requestCalculateLayout
  simp [h]

/-- Witness for C7: a request on node 3, whose handle is null, leaves the
world untouched. -/
theorem requestCalculateLayout_noop_of_dead_witness :
    onlyZeroLiveWorld.yoga 3 = none ∧
    requestCalculateLayout onlyZeroLiveWorld 3 = onlyZeroLiveWorld :=
  ⟨rfl, requestCalculateLayout_noop_of_dead onlyZeroLiveWorld 3 rfl⟩

/-- Counterexample for C2 as stated: the deferred frame hook
(root.ts, lines 229-236) contains no liveness check; it invokes
`calculateLayout` on the pending node even when that node's engine handle
has been released. Concretely: node 0 is requested while live, then
destroyed; at the frame tick its handle is null, yet `calculateLayout` is
invoked on it (the invocation log grows). -/
theorem deferredOnFrame_invokes_calculateLayout_on_dead :
    (destroyNode (requestCalculateLayout onlyZeroLiveWorld 0) 0).yoga 0 = none ∧
    (deferredOnFrame
        (destroyNode
          (requestCalculateLayout onlyZeroLiveWorld 0) 0)).calcInvocations
      = [0] := by
  constructor
  · rfl
  · rfl

/-- C2 (amended): destroying a node between its layout request and the
frame tick yields zero layout-engine recomputes for it, the pending slot
is still cleared, and nothing touches the freed handle — but the liveness
check lives inside `FlexNode.calculateLayout` (which no-ops on a null
handle), not before its invocation in the deferred hook. -/
theorem deferredLayout_destroy_before_tick (w : World) (n h : Nat)
    (hreq : w.requested = none) (hlive : w.yoga n = some h) :
    let w3 := deferredOnFrame (destroyNode (requestCalculateLayout w n) n)
    w3.engineRecomputes = w.engineRecomputes ∧ w3.requested = none := by
  intro w3
  have hstep : requestCalculateLayout w n = { w with requested := some n } := by
    unfold requestCalculateLayout
    simp [hreq, hlive]
  show (deferredOnFrame (destroyNode (requestCalculateLayout w n) n)).engineRecomputes
      = w.engineRecomputes ∧
    (deferredOnFrame (destroyNode (requestCalculateLayout w n) n)).requested = none
  rw [hstep]
  simp [destroyNode, deferredOnFrame, calculateLayout]

/-- Witness for C2's amended theorem: request node 0, destroy it, tick —
no engine recompute happens and the slot is clear. -/
theorem deferredLayout_destroy_before_tick_witness :
    (onlyZeroLiveWorld.requested = none ∧ onlyZeroLiveWorld.yoga 0 = some 1) ∧
    (let w3 := deferredOnFrame (destroyNode
        (requestCalculateLayout onlyZeroLiveWorld 0) 0)
     w3.engineRecomputes = onlyZeroLiveWorld.engineRecomputes ∧
       w3.requested = none) :=
  ⟨⟨rfl, rfl⟩, deferredLayout_destroy_before_tick onlyZeroLiveWorld 0 1 rfl rfl⟩

/-! ## Merged properties

`createRoot` (root.ts, lines 95-99) builds a `MergedProperties` and calls
`merged.addAll(defaultProperties, properties)`, so the explicit instance
properties take precedence over the default/theme properties. Property
keys and values are modelled as naturals; a source maps a key to an
optional value (`none` models an undefined property). -/

/-- A property source: an optional value per key. -/
def PropertySource : Type := Nat → Option Nat

/-- Modelled from the spec: the `MergedProperties` class
(`properties/merged`) is not under `src/`. Per spec 3 (Property Source) a
merged property set is a precedence-ordered list of sources, and per
spec 4.1 reading a key resolves to the first non-undefined value found
scanning sources in precedence order. The list is ordered highest
precedence first. -/
structure MergedProperties where
  sources : List PropertySource

/-- `MergedProperties.addAll(defaultProperties, properties)` as invoked
by `createRoot`: ingests the explicit instance properties at higher
precedence than the optional default/theme properties. -/
def MergedProperties.addAll (m : MergedProperties)
    (defaultProperties : Option PropertySource)
    (properties : PropertySource) : MergedProperties :=
  { sources := m.sources ++ [properties] ++ defaultProperties.toList }

/-- Reading a key: the first non-undefined value in precedence order. -/
def MergedProperties.read (m : MergedProperties) (k : Nat) : Option Nat :=
  m.sources.findSome? (fun s => s k)

/-- C3: after `addAll(defaultProperties, properties)` on the root's fresh
merged set, a key defined by the explicit properties resolves to the
explicit value, regardless of what any default/theme source says
(changing the lower-precedence source never changes the resolution); a
key the explicit properties leave undefined falls through to the
default/theme source. -/
theorem mergedProperties_precedence (d p : PropertySource) (k : Nat) :
    (∀ v, p k = some v →
      (MergedProperties.addAll ⟨[]⟩ (some d) p).read k = some v ∧
      ∀ d2 : PropertySource,
        (MergedProperties.addAll ⟨[]⟩ (some d2) p).read k =
          (MergedProperties.addAll ⟨[]⟩ (some d) p).read k) ∧
    (p k = none →
      (MergedProperties.addAll ⟨[]⟩ (some d) p).read k = d k) := by
  constructor
  · intro v hv
    constructor
    · simp [MergedProperties.addAll, MergedProperties.read,
        List.findSome?, hv]
    · intro d2
      simp [MergedProperties.addAll, MergedProperties.read,
        List.findSome?, hv]
  · intro hnone
    simp [MergedProperties.addAll, MergedProperties.read,
      List.findSome?, hnone]
    cases d k <;> rfl

/-- Witness for C3: explicit source defines key 1 as 10, default source
says 99 there (and 7 at key 2): key 1 resolves to 10, also after the
default source is replaced, and key 2 falls through to 7. -/
theorem mergedProperties_precedence_witness :
    ((fun k => if k = 1 then some 10 else none) : PropertySource) 1
        = some 10 ∧
    (MergedProperties.addAll ⟨[]⟩
        (some (fun k => if k = 1 then some 99 else some 7))
        (fun k => if k = 1 then some 10 else none)).read 1 = some 10 ∧
    ∀ d2 : PropertySource,
      (MergedProperties.addAll ⟨[]⟩ (some d2)
          (fun k => if k = 1 then some 10 else none)).read 1 =
        (MergedProperties.addAll ⟨[]⟩
            (some (fun k => if k = 1 then some 99 else some 7))
            (fun k => if k = 1 then some 10 else none)).read 1 :=
  ⟨rfl,
    ((mergedProperties_precedence
        (fun k => if k = 1 then some 99 else some 7)
        (fun k => if k = 1 then some 10 else none) 1).1 10 rfl).1,
    ((mergedProperties_precedence
        (fun k => if k = 1 then some 99 else some 7)
        (fun k => if k = 1 then some 10 else none) 1).1 10 rfl).2⟩

/-! ## Size translation and the pixel-size default

`createSizeTranslator` (root.ts, lines 247-267) registers a transformer
for `sizeX` (resp. `sizeY`) that writes the derived `width` (resp.
`height`) property: `undefined` when the source value is null/undefined,
otherwise the value divided by `pixelSize`. `createRoot` (line 79)
resolves `pixelSize` as `properties.pixelSize ?? DEFAULT_PIXEL_SIZE`. -/

/-- root.ts, line 60. -/
def DEFAULT_PIXEL_SIZE : ℚ := 2 / 1000

/-- `properties.pixelSize ?? DEFAULT_PIXEL_SIZE` (root.ts, line 79). -/
def resolvePixelSize (explicit : Option ℚ) : ℚ :=
  explicit.getD DEFAULT_PIXEL_SIZE

/-- Derived property keys written by the root's transformers. -/
inductive PropKey where
  | width
  | height
  | otherKey (n : Nat)
deriving DecidableEq

/-- The target of derived writes: the merged set viewed as a map from
derived keys to optional rational values. -/
def Target : Type := PropKey → Option ℚ

/-- The computed value installed by the translator (root.ts, lines
255-261): `undefined` when the reactive source value reads as
null/undefined, else the value divided by `pixelSize`. `readReactive` on
a plain optional value is the identity. -/
def sizeComputed (pixelSize : ℚ) (value : Option ℚ) : Option ℚ :=
  match value with
  | none => none
  | some s => some (s / pixelSize)

/-- The transformer returned by `createSizeTranslator(pixelSize, key, to)`
applied to a value: `target.add(to, entry)` writes the computed entry
under the derived key `to` (root.ts, line 264). -/
def createSizeTranslator (pixelSize : ℚ) (toKey : PropKey) (value : Option ℚ)
    (target : Target) : Target :=
  fun k => if k = toKey then sizeComputed pixelSize value else target k

/-- C4: with the default pixel size 0.002, `sizeX = 100` resolves the
derived `width` to `100 / 0.002 = 50000`; in general a non-null `sizeX`
value `s` writes `width = s / p` (equivalently, the written value `v`
satisfies `v * p = s`), a null/undefined `sizeX` writes `undefined`, an
unset `pixelSize` property defaults to `0.002`, and the symmetric
statement holds for `sizeY` and `height`. -/
theorem sizeTranslator_divides_by_pixelSize (t : Target) (p : ℚ)
    (hp : p ≠ 0) :
    createSizeTranslator (resolvePixelSize (some (2 / 1000))) PropKey.width
        (some 100) t PropKey.width = some 50000 ∧
    (∀ s v, sizeComputed p (some s) = some v → v * p = s) ∧
    createSizeTranslator p PropKey.width none t PropKey.width = none ∧
    (∀ s, createSizeTranslator p PropKey.height (some s) t PropKey.height
      = some (s / p)) ∧
    resolvePixelSize none = 2 / 1000 := by
  refine ⟨?_, ?_, ?_, ?_, ?_⟩
  · show sizeComputed (resolvePixelSize (some (2 / 1000))) (some 100)
      = some 50000
    simp [sizeComputed, resolvePixelSize]
    norm_num
  · intro s v hv
    simp [sizeComputed] at hv
    rw [← hv]
    field_simp
  · rfl
  · intro s
    rfl
  · rfl

/-- Witness for C4 at pixel size 1/2: width of sizeX 100 under the
default scale is 50000, sizeY 7 yields height 14, and a null sizeX
yields an undefined width. -/
theorem sizeTranslator_divides_by_pixelSize_witness :
    ((1 : ℚ) / 2 ≠ 0) ∧
    (createSizeTranslator (resolvePixelSize (some (2 / 1000)))
        PropKey.width (some 100) (fun _ => none) PropKey.width
        = some 50000 ∧
      (∀ s v, sizeComputed ((1 : ℚ) / 2) (some s) = some v →
        v * ((1 : ℚ) / 2) = s) ∧
      createSizeTranslator ((1 : ℚ) / 2) PropKey.width none (fun _ => none)
        PropKey.width = none ∧
      (∀ s, createSizeTranslator ((1 : ℚ) / 2) PropKey.height (some s)
        (fun _ => none) PropKey.height = some (s / ((1 : ℚ) / 2))) ∧
      resolvePixelSize none = 2 / 1000) :=
  ⟨by norm_num,
    sizeTranslator_divides_by_pixelSize (fun _ => none) ((1 : ℚ) / 2)
      (by norm_num)⟩

/-! ## Root lifecycle: frame hooks, subscriptions, destroy

`createRoot` (root.ts, lines 67-218) starts from a fresh empty
`onFrameSet` (line 93) and an empty subscription list (line 77); during
construction it adds five frame hooks and, for each, pushes a teardown
deleting that hook, interleaved with further teardowns from the
collaborating components. `destroyRoot` (lines 220-222) runs
`unsubscribeSubscriptions` on the list. -/

/-- The five frame hooks `createRoot` adds to `onFrameSet`, in
registration order (root.ts, lines 237 via 101, 125, 139, 184, 187). -/
inductive Hook where
  | deferredLayout
  | panelGroup
  | cameraDistance
  | scroll
  | glyph
deriving DecidableEq

/-- A teardown callback pushed onto the subscription list: either the
removal of a frame hook from `onFrameSet`, or one of the other teardowns
(cursor cleanup, node destruction, transform/panel/scrollbar/listener/
interaction teardowns), identified by an index. -/
inductive Teardown where
  | removeHook (h : Hook)
  | misc (n : Nat)
deriving DecidableEq

/-- The mutable root lifecycle state: the frame-hook set, the
subscription list, and a log of every executed teardown in order. -/
structure RootLife where
  onFrameSet : List Hook
  subscriptions : List Teardown
  log : List Teardown
deriving DecidableEq

/-- Running one teardown: hook removals delete from `onFrameSet`; every
execution is logged. -/
def runTeardown (s : RootLife) (t : Teardown) : RootLife :=
  match t with
  | .removeHook h =>
      { s with onFrameSet := s.onFrameSet.erase h, log := s.log ++ [t] }
  | .misc _ => { s with log := s.log ++ [t] }

/-- Modelled from the spec: `unsubscribeSubscriptions` (`utils`) is not
under `src/`. Per spec 3 (Subscription List) the list is drained exactly
once on destroy: every recorded teardown runs once, and the list is left
empty so a second destroy finds nothing to run. -/
def unsubscribeSubscriptions (s : RootLife) : RootLife :=
  { s.subscriptions.foldl runTeardown s with subscriptions := [] }

/-- `destroyRoot` (root.ts, lines 220-222). -/
def destroyRoot (s : RootLife) : RootLife :=
  unsubscribeSubscriptions s

/-- The lifecycle state right after `createRoot` returns: `onFrameSet`
holds the five hooks in registration order, and the subscription list
holds, in push order (root.ts lines 78, 238, 112, 117, 126, 140, 142,
159, 173, 175, 185, 188, 209): cursor cleanup, the deferred-layout hook
removal, node destruction, transform teardown, the panel-group and
camera-distance hook removals, instanced-panel, scrollbar, and
layout-listener teardowns, the scroll-handler teardown and scroll hook
removal, the glyph hook removal, and the interaction-panel teardown. -/
def createRoot : RootLife :=
  { onFrameSet := [.deferredLayout, .panelGroup, .cameraDistance, .scroll,
      .glyph],
    subscriptions := [.misc 0, .removeHook .deferredLayout, .misc 1,
      .misc 2, .removeHook .panelGroup, .removeHook .cameraDistance,
      .misc 3, .misc 4, .misc 5, .misc 6, .removeHook .scroll,
      .removeHook .glyph, .misc 7],
    log := [] }

/-- C6: destroying the root twice is safe: the first destroy runs every
recorded teardown exactly once, in order (the log equals the constructed
subscription list, in which each hook removal occurs exactly once), and
empties `onFrameSet` back to its pre-construction count of zero; the
second destroy changes nothing — indeed a double destroy equals a single
destroy for every lifecycle state. -/
theorem destroyRoot_idempotent_releases_hooks_once :
    ((destroyRoot createRoot).onFrameSet = [] ∧
      (destroyRoot createRoot).log = createRoot.subscriptions ∧
      (destroyRoot createRoot).log.count
          (Teardown.removeHook .deferredLayout) = 1 ∧
      (destroyRoot createRoot).log.count
          (Teardown.removeHook .panelGroup) = 1 ∧
      (destroyRoot createRoot).log.count
          (Teardown.removeHook .cameraDistance) = 1 ∧
      (destroyRoot createRoot).log.count (Teardown.removeHook .scroll) = 1 ∧
      (destroyRoot createRoot).log.count (Teardown.removeHook .glyph) = 1 ∧
      destroyRoot (destroyRoot createRoot) = destroyRoot createRoot) ∧
    ∀ s : RootLife, destroyRoot (destroyRoot s) = destroyRoot s := by
  constructor
  · refine ⟨?_, ?_, ?_, ?_, ?_, ?_, ?_, ?_⟩ <;> decide
  · intro s
    rfl

/-! ## Batched property writes on the Image wrapper

`Image.setProperties` (the unnamed source file defining `class Image`)
assigns `propertiesSignal.value` and `defaultPropertiesSignal.value`
inside a single `batch(...)` call. -/

/-- The two signal cells the Image wrapper writes. Property values are
modelled as naturals; default properties are optional. -/
structure ImageSignals where
  propertiesSignal : Nat
  defaultPropertiesSignal : Option Nat
deriving DecidableEq

/-- A pending signal write inside a batch. -/
inductive SignalWrite where
  | writeProperties (v : Nat)
  | writeDefaultProperties (v : Option Nat)

/-- Applying one signal write. -/
def applyWrite (s : ImageSignals) : SignalWrite → ImageSignals
  | .writeProperties v => { s with propertiesSignal := v }
  | .writeDefaultProperties v => { s with defaultPropertiesSignal := v }

/-- What a dependent computation reading both cells observes when it
(re-)evaluates. -/
def dependentObservation (s : ImageSignals) : Nat × Option Nat :=
  (s.propertiesSignal, s.defaultPropertiesSignal)

/-- Modelled from the spec: the reactive library's `batch` is an external
dependency ("batched updates", spec 2; "no dependent is evaluated more
than once per propagation batch", spec 3). All writes are applied first,
then each dependent re-evaluates once against the final state; the
returned list is the sequence of observations a dependent of both cells
makes during the call. -/
def signalBatch (s : ImageSignals) (ws : List SignalWrite) :
    ImageSignals × List (Nat × Option Nat) :=
  let s2 := ws.foldl applyWrite s
  (s2, [dependentObservation s2])

/-- `Image.setProperties(properties, defaultProperties)`: both writes
inside one batch. -/
def Image.setProperties (s : ImageSignals) (properties : Nat)
    (defaultProperties : Option Nat) :
    ImageSignals × List (Nat × Option Nat) :=
  signalBatch s [.writeProperties properties,
    .writeDefaultProperties defaultProperties]

/-- C10: during `Image.setProperties` a dependent of both cells
re-evaluates exactly once (hence at most once), and the single
observation pairs the new properties with the new default properties —
never a new/old mixed pair; the final state holds both new values. -/
theorem image_setProperties_batched (s : ImageSignals) (p : Nat)
    (d : Option Nat) :
    (Image.setProperties s p d).2 = [(p, d)] ∧
    (Image.setProperties s p d).1 =
      { propertiesSignal := p, defaultPropertiesSignal := d } := by
  constructor
  · rfl
  · rfl

/-! ## Root matrix and anchor alignment

`computeRootMatrix` (root.ts, lines 272-291) premultiplies the transform
matrix with a translation built from the resolved `anchorX`/`anchorY`
offsets scaled by the node size and `pixelSize`; an unset anchor falls
back to the `center` variant (`?? 'center'`). Matrices model three.js
`Matrix4` in row/column index form: `makeTranslation x y z` places `x`,
`y`, `z` in column 3, and `a.premultiply(b)` computes `b * a`. -/

/-- A 4x4 rational matrix (three.js `Matrix4`, entry (row, column)). -/
def Mat4 : Type := Fin 4 → Fin 4 → ℚ

/-- Matrix product, written as the explicit four-term dot product. -/
def matMul (a b : Mat4) : Mat4 := fun i j =>
  a i 0 * b 0 j + a i 1 * b 1 j + a i 2 * b 2 j + a i 3 * b 3 j

/-- three.js `Matrix4.makeTranslation`: the identity with `x`, `y`, `z`
in rows 0-2 of column 3. -/
def makeTranslation (x y z : ℚ) : Mat4 := fun i j =>
  if i = j then 1
  else if j = 3 then (if i = 0 then x else if i = 1 then y else z)
  else 0

/-- The recognised `anchorX` variants (keys of `alignmentXMap`). -/
inductive AnchorX where
  | left
  | center
  | right
deriving DecidableEq

/-- The recognised `anchorY` variants (keys of `alignmentYMap`). -/
inductive AnchorY where
  | top
  | center
  | bottom
deriving DecidableEq

/-- Modelled from the spec: `alignmentXMap` (`utils`) is not under
`src/`. Per spec 6, anchor variants are "mapped to numeric offsets";
anchoring at an edge offsets the content by half its extent, so `left`
and `right` sit a full extent apart and `center` is the origin. -/
def alignmentXMap : AnchorX → ℚ
  | .left => 1 / 2
  | .center => 0
  | .right => -(1 / 2)

/-- Modelled from the spec: `alignmentYMap` (`utils`), symmetric to
`alignmentXMap` along Y. -/
def alignmentYMap : AnchorY → ℚ
  | .top => -(1 / 2)
  | .center => 0
  | .bottom => 1 / 2

/-- `computeRootMatrix` (root.ts, lines 279-290): when the transform
matrix is present, premultiply it with the translation by the resolved
anchor offsets times `[width, height]` times `pixelSize`; unset anchors
resolve to `center`. -/
def computeRootMatrix (anchorX : Option AnchorX) (anchorY : Option AnchorY)
    (matrix : Option Mat4) (size : ℚ × ℚ) (pixelSize : ℚ) : Option Mat4 :=
  matrix.map fun m =>
    matMul
      (makeTranslation
        (alignmentXMap (anchorX.getD .center) * size.1 * pixelSize)
        (alignmentYMap (anchorY.getD .center) * size.2 * pixelSize)
        0)
      m

/-- The X translation component (row 0, column 3) of an optional root
matrix. -/
def rootTranslationX (o : Option Mat4) : ℚ :=
  (o.map fun a => a 0 3).getD 0

/-- The Y translation component (row 1, column 3) of an optional root
matrix. -/
def rootTranslationY (o : Option Mat4) : ℚ :=
  (o.map fun a => a 1 3).getD 0

/-- C5: for any affine transform matrix (last row ending in 1), node size
(W, H) and pixel size p, the root matrix for `anchorX = left` and for
`anchorX = right` differ in their X translation by exactly W * p, and
symmetrically `anchorY = bottom` vs `top` differ in Y translation by
exactly H * p. -/
theorem rootMatrix_anchor_offset (m : Mat4) (W H p : ℚ)
    (ax : Option AnchorX) (ay : Option AnchorY) (h33 : m 3 3 = 1) :
    rootTranslationX
        (computeRootMatrix (some .left) ay (some m) (W, H) p) -
      rootTranslationX
        (computeRootMatrix (some .right) ay (some m) (W, H) p) = W * p ∧
    rootTranslationY
        (computeRootMatrix ax (some .bottom) (some m) (W, H) p) -
      rootTranslationY
        (computeRootMatrix ax (some .top) (some m) (W, H) p) = H * p := by
  constructor <;>
    · simp [rootTranslationX, rootTranslationY, computeRootMatrix, matMul,
        makeTranslation, alignmentXMap, alignmentYMap, h33]
      ring

/-- Witness for C5 at the identity transform matrix, size (2, 3), pixel
size 5. -/
theorem rootMatrix_anchor_offset_witness :
    (makeTranslation 0 0 0) 3 3 = 1 ∧
    (rootTranslationX
        (computeRootMatrix (some .left) none (some (makeTranslation 0 0 0))
          (2, 3) 5) -
      rootTranslationX
        (computeRootMatrix (some .right) none (some (makeTranslation 0 0 0))
          (2, 3) 5) = 2 * 5 ∧
    rootTranslationY
        (computeRootMatrix none (some .bottom)
          (some (makeTranslation 0 0 0)) (2, 3) 5) -
      rootTranslationY
        (computeRootMatrix none (some .top)
          (some (makeTranslation 0 0 0)) (2, 3) 5) = 3 * 5) :=
  ⟨rfl, rootMatrix_anchor_offset (makeTranslation 0 0 0) 2 3 5 none none rfl⟩

/-- C8: leaving both anchors unset produces exactly the root matrix of
the explicit `center`/`center` anchors, for every transform matrix, size
and pixel size. -/
theorem rootMatrix_unset_anchor_is_center (m : Option Mat4) (size : ℚ × ℚ)
    (p : ℚ) :
    computeRootMatrix none none m size p =
      computeRootMatrix (some .center) (some .center) m size p :=
  rfl

/-! ## Camera-distance frame hook

`onCameraDistanceFrame` (root.ts, lines 128-138): when the root's
scene-graph handle is absent the shared context's `cameraDistance` is
set to 0 and nothing else happens that frame; otherwise the plane
`z = 0` is transformed by the object's world matrix and `cameraDistance`
is set to its signed distance to the camera's world position. The
three.js vector/plane/matrix operations are external collaborators
(spec 2, scene-graph boundary) and are embedded below over exact
rationals. -/

/-- three.js `Vector3` over ℚ. -/
structure Vector3 where
  x : ℚ
  y : ℚ
  z : ℚ
deriving DecidableEq

/-- Dot product. -/
def dot (a b : Vector3) : ℚ := a.x * b.x + a.y * b.y + a.z * b.z

/-- Squared length. -/
def normSq (a : Vector3) : ℚ := dot a a

/-- A 3x3 rational matrix (three.js `Matrix3`). -/
def Mat3 : Type := Fin 3 → Fin 3 → ℚ

/-- The upper-left 3x3 block of a 4x4 matrix. -/
def upperLeft3 (m : Mat4) : Mat3 := fun i j =>
  m (Fin.castSucc i) (Fin.castSucc j)

/-- The smaller of the two indices of `Fin 3` different from `i`. -/
def minorRow1 : Fin 3 → Fin 3 := fun i => if i = 0 then 1 else 0

/-- The larger of the two indices of `Fin 3` different from `i`. -/
def minorRow2 : Fin 3 → Fin 3 := fun i => if i = 2 then 1 else 2

/-- The (i, j) cofactor of a 3x3 matrix: the signed determinant of the
minor obtained by deleting row i and column j. -/
def cof (m : Mat3) (i j : Fin 3) : ℚ :=
  (if (i.val + j.val) % 2 = 0 then 1 else -1) *
    (m (minorRow1 i) (minorRow1 j) * m (minorRow2 i) (minorRow2 j) -
      m (minorRow1 i) (minorRow2 j) * m (minorRow2 i) (minorRow1 j))

/-- Determinant via cofactor expansion along row 0. -/
def det3 (m : Mat3) : ℚ :=
  m 0 0 * cof m 0 0 + m 0 1 * cof m 0 1 + m 0 2 * cof m 0 2

/-- three.js `Matrix3.invert`: the adjugate divided by the determinant,
or the zero matrix when the determinant vanishes. -/
def inverse3 (m : Mat3) : Mat3 :=
  if det3 m = 0 then fun _ _ => 0 else fun i j => cof m j i / det3 m

/-- Transpose. -/
def transpose3 (m : Mat3) : Mat3 := fun i j => m j i

/-- three.js `Matrix3.getNormalMatrix`: the inverse transpose of the
upper-left 3x3 block. -/
def getNormalMatrix (m : Mat4) : Mat3 :=
  transpose3 (inverse3 (upperLeft3 m))

/-- Applying a 3x3 matrix to a vector. -/
def applyMatrix3 (a : Mat3) (v : Vector3) : Vector3 :=
  ⟨a 0 0 * v.x + a 0 1 * v.y + a 0 2 * v.z,
    a 1 0 * v.x + a 1 1 * v.y + a 1 2 * v.z,
    a 2 0 * v.x + a 2 1 * v.y + a 2 2 * v.z⟩

/-- three.js `Vector3.applyMatrix4`: affine application with perspective
divide. -/
def applyMatrix4V (m : Mat4) (v : Vector3) : Vector3 :=
  let w := m 3 0 * v.x + m 3 1 * v.y + m 3 2 * v.z + m 3 3
  ⟨(m 0 0 * v.x + m 0 1 * v.y + m 0 2 * v.z + m 0 3) / w,
    (m 1 0 * v.x + m 1 1 * v.y + m 1 2 * v.z + m 1 3) / w,
    (m 2 0 * v.x + m 2 1 * v.y + m 2 2 * v.z + m 2 3) / w⟩

/-- three.js `Plane`: the set of points p with `dot normal p + constant
= 0`. -/
structure Plane where
  normal : Vector3
  constant : ℚ
deriving DecidableEq

/-- three.js `Plane.coplanarPoint`: the normal scaled by the negated
constant. -/
def Plane.coplanarPoint (pl : Plane) : Vector3 :=
  ⟨-pl.constant * pl.normal.x, -pl.constant * pl.normal.y,
    -pl.constant * pl.normal.z⟩

/-- Modelled from the spec: three.js `Plane.applyMatrix4` (external
scene-graph engine). A coplanar reference point is pushed through the
matrix, the normal through the normal matrix, and the constant is
recomputed; the final unit-normalisation of three.js is the identity
whenever the transformed normal is already unit length — square roots
are not rational, so the theorems below restrict to that case. -/
def Plane.applyMatrix4 (pl : Plane) (m : Mat4) : Plane :=
  let referencePoint := applyMatrix4V m pl.coplanarPoint
  let n := applyMatrix3 (getNormalMatrix m) pl.normal
  ⟨n, -(dot referencePoint n)⟩

/-- three.js `Plane.distanceToPoint`. -/
def Plane.distanceToPoint (pl : Plane) (p : Vector3) : ℚ :=
  dot pl.normal p + pl.constant

/-- `planeHelper.normal.set(0, 0, 1); planeHelper.constant = 0`
(root.ts, lines 133-134). -/
def basePlane : Plane := ⟨⟨0, 0, 1⟩, 0⟩

/-- three.js `Vector3.setFromMatrixPosition`: the translation column. -/
def setFromMatrixPosition (m : Mat4) : Vector3 := ⟨m 0 3, m 1 3, m 2 3⟩

/-- The shared per-root context: `cameraDistance` plus, abstractly, the
rest of the `RootContext` fields (to state that the hook writes nothing
else). -/
structure WithCameraDistance where
  cameraDistance : ℚ
  rest : Nat
deriving DecidableEq

/-- `onCameraDistanceFrame` (root.ts, lines 128-138): with no scene-graph
handle, set `cameraDistance` to 0 and return; otherwise transform the
base plane by the object's world matrix and store its distance to the
camera's world position. -/
def onCameraDistanceFrame (objectCurrent : Option Mat4)
    (cameraMatrixWorld : Mat4) (ctx : WithCameraDistance) :
    WithCameraDistance :=
  match objectCurrent with
  | none => { ctx with cameraDistance := 0 }
  | some m =>
      let pl := basePlane.applyMatrix4 m
      let v := setFromMatrixPosition cameraMatrixWorld
      { ctx with cameraDistance := pl.distanceToPoint v }

/-- The signed distance from point `p` to the plane through `refPoint`
with unit normal `n`. -/
def signedPlaneDistance (n refPoint p : Vector3) : ℚ :=
  dot n p - dot n refPoint

/-- C9: when the object handle is absent the hook sets `cameraDistance`
to 0, leaves the rest of the context alone and reads nothing from the
camera; when the handle is attached (and the transformed plane normal is
unit, the domain on which the rational embedding of the external plane
math is exact) it sets `cameraDistance` to the signed distance from the
camera's world position to the root's transformed plane, again leaving
the rest of the context alone. -/
theorem onCameraDistanceFrame_cases :
    (∀ cam cam2 ctx,
      onCameraDistanceFrame none cam ctx = { ctx with cameraDistance := 0 } ∧
      onCameraDistanceFrame none cam ctx = onCameraDistanceFrame none cam2 ctx) ∧
    (∀ m cam ctx, normSq (basePlane.applyMatrix4 m).normal = 1 →
      (onCameraDistanceFrame (some m) cam ctx).cameraDistance =
        signedPlaneDistance (basePlane.applyMatrix4 m).normal
          (applyMatrix4V m basePlane.coplanarPoint)
          (setFromMatrixPosition cam) ∧
      (onCameraDistanceFrame (some m) cam ctx).rest = ctx.rest) := by
  constructor
  · intro cam cam2 ctx
    exact ⟨rfl, rfl⟩
  · intro m cam ctx _
    constructor
    · simp only [onCameraDistanceFrame]
      simp [Plane.applyMatrix4, Plane.distanceToPoint, signedPlaneDistance,
        dot]
      ring
    · rfl

/-- Witness for C9: an absent handle zeroes the distance; for the object
translated to (1, 2, 3) the transformed normal is (0, 0, 1) (unit) and
the camera at (5, 7, 9) sits at signed distance 9 - 3 = 6. -/
theorem onCameraDistanceFrame_cases_witness :
    (onCameraDistanceFrame none (makeTranslation 5 7 9) ⟨42, 11⟩ =
        ⟨0, 11⟩ ∧
      onCameraDistanceFrame none (makeTranslation 5 7 9) ⟨42, 11⟩ =
        onCameraDistanceFrame none (makeTranslation 1 2 3) ⟨42, 11⟩) ∧
    normSq (basePlane.applyMatrix4 (makeTranslation 1 2 3)).normal = 1 ∧
    (onCameraDistanceFrame (some (makeTranslation 1 2 3))
        (makeTranslation 5 7 9) ⟨42, 11⟩).cameraDistance =
      signedPlaneDistance
        (basePlane.applyMatrix4 (makeTranslation 1 2 3)).normal
        (applyMatrix4V (makeTranslation 1 2 3) basePlane.coplanarPoint)
        (setFromMatrixPosition (makeTranslation 5 7 9)) :=
  ⟨onCameraDistanceFrame_cases.1 (makeTranslation 5 7 9)
      (makeTranslation 1 2 3) ⟨42, 11⟩,
    by
      simp [normSq, dot, Plane.applyMatrix4, applyMatrix3, getNormalMatrix,
        transpose3, inverse3, det3, cof, minorRow1, minorRow2, upperLeft3,
        makeTranslation, basePlane, Fin.castSucc, Fin.castAdd, Fin.castLE],
    (onCameraDistanceFrame_cases.2 (makeTranslation 1 2 3)
        (makeTranslation 5 7 9) ⟨42, 11⟩ (by
      simp [normSq, dot, Plane.applyMatrix4, applyMatrix3, getNormalMatrix,
        transpose3, inverse3, det3, cof, minorRow1, minorRow2, upperLeft3,
        makeTranslation, basePlane, Fin.castSucc, Fin.castAdd,
        Fin.castLE])).1⟩

end Uikit
